import Mathlib

/-!
# Shallow embedding of the `uulid` package

This file embeds the core of the `uulid` Go package in Lean:

* the monotonic `Generator` (`seed`, last-seen millisecond, 80-bit entropy
  counter split into a 16-bit `hi` half and a 64-bit `lo` half) with its
  `uint64r` pseudo-random step, the `advance` reseed and the `read`
  same-millisecond increment;
* the 16-byte `UULID` value (modelled as a `List Nat` of bytes) with its
  timestamp accessors;
* the hex codec (`MarshalTextTo` / `parse`) with its three accepted input
  lengths 16 / 32 / 36 and the in-place, partial-write decode semantics of
  `encoding/hex`;
* the millisecond time codec `Timestamp` / `Time`;
* the `sql.Scanner` adapter `Scan`.

Machine words are `Nat` with explicit `% 2^w` at every operation where the
Go code can wrap.  Fallible operations return the written buffer together
with an `Option Err` (mirroring Go's in-place writes plus error return) or
an `Except Err` result.
-/

namespace UULIDSpec

/-- The error values of the package.  `ErrHex` stands for any error
bubbled up from the `encoding/hex` decoding step. -/
inductive Err where
  | ErrBigTime
  | ErrDataSize
  | ErrBufferSize
  | ErrInvalidType
  | ErrMonotonicOverflow
  | ErrSmallTime
  | ErrHex
deriving DecidableEq, Repr

/-- `MaxTimestamp = 2^48 - 1`, the largest encodable millisecond value. -/
def MaxTimestamp : Nat := 281474976710655

/-- `binary.BigEndian.PutUint16`: the two big-endian bytes of a 16-bit word. -/
def putUint16 (v : Nat) : List Nat :=
  [v / 256 % 256, v % 256]

/-- `binary.BigEndian.PutUint64`: the eight big-endian bytes of a 64-bit word. -/
def putUint64 (v : Nat) : List Nat :=
  [v / 72057594037927936 % 256, v / 281474976710656 % 256,
   v / 1099511627776 % 256, v / 4294967296 % 256,
   v / 16777216 % 256, v / 65536 % 256, v / 256 % 256, v % 256]

/-- Big-endian value of a byte list (most significant byte first). -/
def bytesBE (l : List Nat) : Nat :=
  l.foldl (fun a b => a * 256 + b) 0

/-- The 80-bit entropy value of an identifier: bytes 6-15, big-endian. -/
def entropyValue (id : List Nat) : Nat :=
  bytesBE (id.drop 6)

/-- The mutable generator state: RNG seed, last-seen millisecond, and the
80-bit entropy counter split as 16-bit `hi` and 64-bit `lo` halves. -/
structure Generator where
  seed : Nat
  ms : Nat
  hi : Nat
  lo : Nat
deriving DecidableEq, Repr

/-- `Generator.uint64r`: advance `seed += 0xa0761d6478bd642f` (mod 2^64),
take the 128-bit product of `seed ^^^ 0xe7037ed1a0b428db` with `seed`, and
return the xor of the product's high and low 64-bit halves, together with
the updated generator. -/
def Generator.uint64r (r : Generator) : Generator × Nat :=
  let s := (r.seed + 0xa0761d6478bd642f) % 18446744073709551616
  let p := (s ^^^ 0xe7037ed1a0b428db) * s
  ({ r with seed := s }, (p / 18446744073709551616) ^^^ (p % 18446744073709551616))

/-- `Generator.advance`: record the new millisecond and regenerate both
counter halves, `hi` from the low 16 bits of one `uint64r` step and `lo`
from the full output of the next step. -/
def Generator.advance (r : Generator) (ms : Nat) : Generator :=
  let s1 := r.uint64r
  let s2 := s1.1.uint64r
  { s2.1 with ms := ms, hi := s1.2 % 65536, lo := s2.2 }

/-- `Generator.read`: produce the ten entropy bytes for millisecond `ms`.
Within the same millisecond the 80-bit counter is incremented (low half
first, carrying into the high half; if both wrap the call fails with
`ErrMonotonicOverflow`, state already mutated).  On a different
millisecond both halves are regenerated via `advance`. -/
def Generator.read (r : Generator) (ms : Nat) : Generator × Except Err (List Nat) :=
  if r.ms = ms then
    let lo := r.lo
    let hi := r.hi
    let lo2 := (r.lo + 1) % 18446744073709551616
    if lo2 < lo then
      let hi2 := (r.hi + 1) % 65536
      if hi2 < hi then
        ({ r with hi := hi2, lo := lo2 }, .error .ErrMonotonicOverflow)
      else
        ({ r with hi := hi2, lo := lo2 }, .ok (putUint16 hi2 ++ putUint64 lo2))
    else
      ({ r with lo := lo2 }, .ok (putUint16 r.hi ++ putUint64 lo2))
  else
    let r2 := r.advance ms
    (r2, .ok (putUint16 r2.hi ++ putUint64 r2.lo))

/-- `UULID.SetTimestamp`'s byte image: the six big-endian timestamp bytes. -/
def tsToBytes (ms : Nat) : List Nat :=
  [ms / 1099511627776 % 256, ms / 4294967296 % 256, ms / 16777216 % 256,
   ms / 65536 % 256, ms / 256 % 256, ms % 256]

/-- `Generator.New`, with the current millisecond passed explicitly: set the
timestamp bytes (failing with `ErrBigTime` above `MaxTimestamp`), then fill
bytes 6-15 from `read`. -/
def Generator.New (r : Generator) (ms : Nat) : Generator × Except Err (List Nat) :=
  if MaxTimestamp < ms then (r, .error .ErrBigTime)
  else
    match r.read ms with
    | (r2, .ok e) => (r2, .ok (tsToBytes ms ++ e))
    | (r2, .error err) => (r2, .error err)

/-- `uulid.UULID.Timestamp`: the 48-bit big-endian value of bytes 0-5. -/
def timestamp (id : List Nat) : Nat :=
  id.getD 5 0 + id.getD 4 0 * 256 + id.getD 3 0 * 65536 + id.getD 2 0 * 16777216 +
    id.getD 1 0 * 4294967296 + id.getD 0 0 * 1099511627776

/-- One nibble to its lowercase hex character (`encoding/hex` table). -/
def hexChar (n : Nat) : Nat :=
  if n < 10 then 48 + n else 87 + n

/-- `hex.Encode`: two lowercase hex characters per byte, in order. -/
def hexEncode : List Nat → List Nat
  | [] => []
  | b :: rest => hexChar (b / 16) :: hexChar (b % 16) :: hexEncode rest

/-- `hex` `fromHexChar`: decode one character, accepting `0-9`, `a-f`, `A-F`. -/
def fromHexChar (c : Nat) : Option Nat :=
  if 48 ≤ c ∧ c ≤ 57 then some (c - 48)
  else if 97 ≤ c ∧ c ≤ 102 then some (c - 97 + 10)
  else if 65 ≤ c ∧ c ≤ 70 then some (c - 65 + 10)
  else none

/-- `hex.Decode`'s incremental behaviour: the list of bytes decoded before
the first failure, and `some ()` when it stopped with an error (invalid
character or odd trailing character).  The successfully decoded prefix is
written to the destination even when an error follows. -/
def hexDecodePrefix : List Nat → List Nat × Option Unit
  | [] => ([], none)
  | a :: b :: rest =>
    match fromHexChar a, fromHexChar b with
    | some x, some y =>
      let r := hexDecodePrefix rest
      ((x * 16 + y) :: r.1, r.2)
    | _, _ => ([], some ())
  | [_] => ([], some ())

/-- Overwrite `id` starting at offset `off` with the bytes `src`
(Go `copy(id[off:off+len(src)], src)` for in-range writes). -/
def writeRange (id : List Nat) (off : Nat) (src : List Nat) : List Nat :=
  id.take off ++ src ++ id.drop (off + src.length)

/-- `uulid.parse(data, id)`: route by input length (16 raw / 32 plain hex /
36 dashed hex / otherwise `ErrDataSize`), decode in place into `id`, then
range-check the embedded timestamp.  Returns the final buffer and the
error, mirroring Go's in-place writes. -/
def parse (data : List Nat) (id : List Nat) : List Nat × Option Err :=
  if data.length = 16 then
    let id1 := writeRange id 0 data
    if MaxTimestamp < timestamp id1 then (id1, some .ErrBigTime) else (id1, none)
  else if data.length = 32 then
    let r := hexDecodePrefix data
    let id1 := writeRange id 0 r.1
    if r.2.isSome then (id1, some .ErrHex)
    else if MaxTimestamp < timestamp id1 then (id1, some .ErrBigTime) else (id1, none)
  else if data.length = 36 then
    let r1 := hexDecodePrefix (data.take 8)
    let id1 := writeRange id 0 r1.1
    if r1.2.isSome then (id1, some .ErrHex) else
    let r2 := hexDecodePrefix ((data.drop 9).take 4)
    let id2 := writeRange id1 4 r2.1
    if r2.2.isSome then (id2, some .ErrHex) else
    let r3 := hexDecodePrefix ((data.drop 14).take 4)
    let id3 := writeRange id2 6 r3.1
    if r3.2.isSome then (id3, some .ErrHex) else
    let r4 := hexDecodePrefix ((data.drop 19).take 4)
    let id4 := writeRange id3 8 r4.1
    if r4.2.isSome then (id4, some .ErrHex) else
    let r5 := hexDecodePrefix ((data.drop 24).take 12)
    let id5 := writeRange id4 10 r5.1
    if r5.2.isSome then (id5, some .ErrHex)
    else if MaxTimestamp < timestamp id5 then (id5, some .ErrBigTime) else (id5, none)
  else (id, some .ErrDataSize)

/-- The all-zero identifier (`var id UULID`). -/
def zeroUULID : List Nat := List.replicate 16 0

/-- `uulid.Parse`: parse into a fresh zero identifier, returning either the
identifier or the error. -/
def Parse (data : List Nat) : Except Err (List Nat) :=
  match parse data zeroUULID with
  | (id, none) => .ok id
  | (_, some e) => .error e

/-- `UULID.MarshalTextTo` into an exactly-sized buffer: five lowercase hex
groups over byte ranges `[0:4] [4:6] [6:8] [8:10] [10:16]`, separated by
dashes (`45`). -/
def MarshalText (id : List Nat) : List Nat :=
  hexEncode (id.take 4) ++ 45 :: hexEncode ((id.drop 4).take 2) ++
    45 :: hexEncode ((id.drop 6).take 2) ++ 45 :: hexEncode ((id.drop 8).take 2) ++
    45 :: hexEncode ((id.drop 10).take 6)

/-- `UULID.MarshalBinary`: a copy of the 16 raw bytes. -/
def MarshalBinary (id : List Nat) : List Nat := id

/-- `UULID.UnmarshalBinary`: length pre-check, then `parse` in place. -/
def UnmarshalBinary (id : List Nat) (data : List Nat) : List Nat × Option Err :=
  if data.length ≠ 16 then (id, some .ErrDataSize) else parse data id

/-- `UULID.UnmarshalText`: `parse` in place, no pre-check. -/
def UnmarshalText (id : List Nat) (data : List Nat) : List Nat × Option Err :=
  parse data id

/-- `UULID.UnmarshalJSON`: `parse` in place, no pre-check. -/
def UnmarshalJSON (id : List Nat) (data : List Nat) : List Nat × Option Err :=
  parse data id

/-- The dynamic values a `database/sql` driver can hand to `Scan`:
`nil`, `string`, `[]byte`, `int64`, `float64`, `bool` or `time.Time`
(payloads beyond the type tag are irrelevant to `Scan`'s type switch). -/
inductive DriverValue where
  | null
  | str (s : List Nat)
  | bytes (b : List Nat)
  | int64 (i : Int)
  | float64 (bits : Nat)
  | boolean (b : Bool)
  | timeValue (sec : Int) (nsec : Int)
deriving DecidableEq, Repr

/-- `UULID.Scan`: type-switch on the dynamic source — `nil` succeeds with
the identifier untouched, `string` and `[]byte` are parsed, anything else
fails with `ErrInvalidType`. -/
def Scan (id : List Nat) (src : DriverValue) : List Nat × Option Err :=
  match src with
  | .null => (id, none)
  | .str s => parse s id
  | .bytes b => parse b id
  | _ => (id, some .ErrInvalidType)

/-- A Go `time.Time` reduced to what the package reads: whole seconds and
the normalized nanosecond offset in `[0, 1e9)`. -/
structure GoTime where
  sec : Int
  nsec : Int
deriving DecidableEq, Repr

/-- `time.Unix(sec, nsec)`: normalize the nanosecond argument into
`[0, 1e9)`, adjusting seconds (Go integer division truncates). -/
def timeUnix (sec nsec : Int) : GoTime :=
  let n := nsec.tdiv 1000000000
  let sec2 := sec + n
  let nsec2 := nsec - n * 1000000000
  if nsec2 < 0 then ⟨sec2 - 1, nsec2 + 1000000000⟩ else ⟨sec2, nsec2⟩

/-- Go's `uint64(i)` conversion of a signed 64-bit value. -/
def u64 (i : Int) : Nat := (i % 18446744073709551616).toNat

/-- `uulid.Timestamp(t)`: `uint64(t.Unix())*1000 + uint64(t.Nanosecond()/1e6)`
in wrapping 64-bit arithmetic. -/
def Timestamp (t : GoTime) : Nat :=
  (u64 t.sec * 1000 % 18446744073709551616 + u64 (t.nsec.tdiv 1000000)) %
    18446744073709551616

/-- `uulid.Time(ms)`: `time.Unix(int64(ms/1e3), int64((ms%1e3)*1e6))`. -/
def Time (ms : Nat) : GoTime :=
  timeUnix ((ms / 1000 : Nat) : Int) ((ms % 1000 * 1000000 : Nat) : Int)

/-! ## Helper lemmas -/

theorem natCast_tdiv (a b : Nat) : (a : Int).tdiv (b : Int) = ((a / b : Nat) : Int) := rfl

theorem Time_eq (ms : Nat) :
    Time ms = ⟨((ms / 1000 : Nat) : Int), ((ms % 1000 * 1000000 : Nat) : Int)⟩ := by
  simp only [Time, timeUnix]
  rw [show ((1000000000 : Int)) = ((1000000000 : Nat) : Int) from rfl, natCast_tdiv]
  have h1 : ms % 1000 * 1000000 / 1000000000 = 0 := by omega
  rw [h1]
  norm_num
  omega

theorem bytesBE_put (hi lo : Nat) (hhi : hi < 65536) (hlo : lo < 18446744073709551616) :
    bytesBE (putUint16 hi ++ putUint64 lo) = hi * 18446744073709551616 + lo := by
  simp [bytesBE, putUint16, putUint64, List.foldl]
  omega

theorem read_same_ok (r : Generator)
    (hhi : r.hi < 65536) (hlo : r.lo < 18446744073709551616)
    (hne : r.hi * 18446744073709551616 + r.lo ≠ 1208925819614629174706175) :
    ∃ hi2 lo2,
      r.read r.ms = ({ r with hi := hi2, lo := lo2 }, .ok (putUint16 hi2 ++ putUint64 lo2)) ∧
      hi2 < 65536 ∧ lo2 < 18446744073709551616 ∧
      hi2 * 18446744073709551616 + lo2 = r.hi * 18446744073709551616 + r.lo + 1 := by
  obtain ⟨s, m, hi, lo⟩ := r
  dsimp only at hhi hlo hne ⊢
  by_cases hw : lo = 18446744073709551615
  · subst hw
    refine ⟨hi + 1, 0, ?_, by omega, by omega, by omega⟩
    have h1 : (hi + 1) % 65536 = hi + 1 := Nat.mod_eq_of_lt (by omega)
    simp [Generator.read, h1]
  · refine ⟨hi, lo + 1, ?_, by omega, by omega, by omega⟩
    have h1 : (lo + 1) % 18446744073709551616 = lo + 1 := Nat.mod_eq_of_lt (by omega)
    simp [Generator.read, h1]

theorem read_max_error (r : Generator)
    (hhi : r.hi = 65535) (hlo : r.lo = 18446744073709551615) :
    r.read r.ms = ({ r with hi := 0, lo := 0 }, .error .ErrMonotonicOverflow) := by
  obtain ⟨s, m, hi, lo⟩ := r
  dsimp only at hhi hlo
  subst hhi hlo
  simp [Generator.read]

theorem entropyValue_ts (ms : Nat) (e : List Nat) :
    entropyValue (tsToBytes ms ++ e) = bytesBE e := rfl

theorem take6_ts (ms : Nat) (e : List Nat) : (tsToBytes ms ++ e).take 6 = tsToBytes ms := rfl

theorem fromHexChar_hexChar (n : Nat) (h : n < 16) : fromHexChar (hexChar n) = some n := by
  unfold fromHexChar hexChar
  split_ifs <;> simp_all <;> omega

theorem hexDecodePrefix_pair (b : Nat) (hb : b < 256) (rest : List Nat) :
    hexDecodePrefix (hexChar (b / 16) :: hexChar (b % 16) :: rest) =
      (b :: (hexDecodePrefix rest).1, (hexDecodePrefix rest).2) := by
  have h1 : fromHexChar (hexChar (b / 16)) = some (b / 16) := fromHexChar_hexChar _ (by omega)
  have h2 : fromHexChar (hexChar (b % 16)) = some (b % 16) := fromHexChar_hexChar _ (by omega)
  simp only [hexDecodePrefix, h1, h2]
  have : b / 16 * 16 + b % 16 = b := by omega
  rw [this]

theorem hexDecodePrefix_nil : hexDecodePrefix [] = ([], none) := rfl

theorem hexDecodePrefix_length : ∀ s out, hexDecodePrefix s = (out, none) →
    2 * out.length = s.length
  | [], out, h => by
    simp only [hexDecodePrefix, Prod.mk.injEq] at h
    simp [← h.1]
  | a :: b :: rest, out, h => by
    simp only [hexDecodePrefix] at h
    cases ha : fromHexChar a with
    | none => rw [ha] at h; simp at h
    | some x =>
      cases hb : fromHexChar b with
      | none => rw [ha, hb] at h; simp at h
      | some y =>
        rw [ha, hb] at h
        simp only [Prod.mk.injEq] at h
        have ih := hexDecodePrefix_length rest (hexDecodePrefix rest).1
        rw [← h.1]
        simp only [List.length_cons, List.length]
        have := ih (by rw [← h.2])
        omega
  | [a], out, h => by
    simp only [hexDecodePrefix] at h
    simp at h

theorem writeRange_zero_full (out : List Nat) (h : out.length = 16) :
    writeRange zeroUULID 0 out = out := by
  simp [writeRange, zeroUULID, h]

theorem writeRange_zero_16 (id d : List Nat) (hid : id.length = 16) (hd : d.length = 16) :
    writeRange id 0 d = d := by
  simp [writeRange, hd]
  omega

/-! ## Claim theorems -/

/-- **C1**: with the last-seen millisecond equal to the current one and the
80-bit counter below its maximum, two identifiers from consecutive
`generate()` calls in that millisecond share their timestamp bytes 0-5 and
the second's 80-bit entropy value is exactly one greater than the first's. -/
theorem generate_same_ms_monotonic (r : Generator) (ms : Nat)
    (hhi : r.hi < 65536) (hlo : r.lo < 18446744073709551616)
    (hms : r.ms = ms) (hts : ms ≤ MaxTimestamp)
    (hcnt : r.hi * 18446744073709551616 + r.lo < 1208925819614629174706175) :
    ∃ r1 id1, r.New ms = (r1, .ok id1) ∧ id1.take 6 = tsToBytes ms ∧
      ∀ r2 id2, r1.New ms = (r2, .ok id2) →
        id2.take 6 = id1.take 6 ∧ entropyValue id2 = entropyValue id1 + 1 := by
  subst hms
  obtain ⟨hi2, lo2, heq, hhi2, hlo2, hsum⟩ := read_same_ok r hhi hlo (by omega)
  have hnotbig : ¬ MaxTimestamp < r.ms := by omega
  refine ⟨{ r with hi := hi2, lo := lo2 },
    tsToBytes r.ms ++ (putUint16 hi2 ++ putUint64 lo2), ?_, ?_, ?_⟩
  · simp only [Generator.New, if_neg hnotbig]
    rw [heq]
  · exact take6_ts r.ms _
  · intro r2 id2 h2
    have hms1 : ({ r with hi := hi2, lo := lo2 } : Generator).ms = r.ms := rfl
    by_cases hmax : hi2 * 18446744073709551616 + lo2 = 1208925819614629174706175
    · exfalso
      have herr := read_max_error { r with hi := hi2, lo := lo2 } (by dsimp only; omega)
        (by dsimp only; omega)
      rw [hms1] at herr
      simp only [Generator.New, if_neg hnotbig, herr] at h2
      simp at h2
    · obtain ⟨hi3, lo3, heq3, hhi3, hlo3, hsum3⟩ :=
        read_same_ok { r with hi := hi2, lo := lo2 } (by dsimp only; omega)
          (by dsimp only; omega) (by dsimp only; omega)
      rw [hms1] at heq3
      dsimp only at hsum3
      simp only [Generator.New, if_neg hnotbig, heq3] at h2
      obtain ⟨-, hid2⟩ := Prod.mk.injEq .. ▸ h2
      have hid2' : id2 = tsToBytes r.ms ++ (putUint16 hi3 ++ putUint64 lo3) := by
        exact (Except.ok.injEq .. ▸ hid2.symm)
      subst hid2'
      constructor
      · rw [take6_ts, take6_ts]
      · rw [entropyValue_ts, entropyValue_ts, bytesBE_put hi3 lo3 hhi3 hlo3,
          bytesBE_put hi2 lo2 hhi2 hlo2]
        omega

/-- **C1 witness**: consecutive same-millisecond calls at generator
`⟨seed 0, ms 5, hi 0, lo 7⟩`. -/
theorem generate_same_ms_monotonic_witness :
    ∃ r1 id1, (Generator.mk 0 5 0 7).New 5 = (r1, .ok id1) ∧ id1.take 6 = tsToBytes 5 ∧
      ∀ r2 id2, r1.New 5 = (r2, .ok id2) →
        id2.take 6 = id1.take 6 ∧ entropyValue id2 = entropyValue id1 + 1 :=
  generate_same_ms_monotonic (Generator.mk 0 5 0 7) 5 (by decide) (by decide) rfl
    (by decide) (by decide)

/-- **C6**: for every millisecond value `ms` in `[0, 2^48-1]`, converting to
wall-clock time and back is the identity: `Timestamp (Time ms) = ms`. -/
theorem time_timestamp_roundtrip (ms : Nat) (h : ms ≤ 281474976710655) :
    Timestamp (Time ms) = ms := by
  rw [Time_eq]
  simp only [Timestamp, u64]
  rw [show ((1000000 : Int)) = ((1000000 : Nat) : Int) from rfl, natCast_tdiv]
  omega

/-- **C6 witness**: the round-trip law at the test vector `1617634303663`. -/
theorem time_timestamp_roundtrip_witness :
    1617634303663 ≤ 281474976710655 ∧ Timestamp (Time 1617634303663) = 1617634303663 :=
  ⟨by norm_num, time_timestamp_roundtrip 1617634303663 (by norm_num)⟩

/-- **C7**: each entropy step advances `seed += 0xA0761D6478BD642F` mod 2^64
and outputs the xor of the high and low 64-bit halves of the 128-bit
product of `(seed XOR 0xE7037ED1A0B428DB)` with `seed`; a regeneration sets
the high counter half from the low 16 bits of one step and the low half
from the full output of the next, independent step — two steps, high half
first. -/
theorem uint64r_step_formula (r : Generator) (ms : Nat) :
    (r.uint64r.1.seed = (r.seed + 0xa0761d6478bd642f) % 18446744073709551616) ∧
    (r.uint64r.2 =
      (((r.uint64r.1.seed ^^^ 0xe7037ed1a0b428db) * r.uint64r.1.seed) / 18446744073709551616) ^^^
      (((r.uint64r.1.seed ^^^ 0xe7037ed1a0b428db) * r.uint64r.1.seed) % 18446744073709551616)) ∧
    ((r.advance ms).hi = r.uint64r.2 % 65536) ∧
    ((r.advance ms).lo = r.uint64r.1.uint64r.2) ∧
    ((r.advance ms).seed = r.uint64r.1.uint64r.1.seed) ∧
    ((r.advance ms).ms = ms) :=
  ⟨rfl, rfl, rfl, rfl, rfl, rfl⟩

/-- **C3**: whenever the current millisecond differs from the last-seen one —
including a strictly smaller one — `read` succeeds with no backward-clock
error: it regenerates both counter halves via the step function, records
the new millisecond, and emits the fresh counter as bytes 6-15. -/
theorem read_new_ms (r : Generator) (ms : Nat) (h : r.ms ≠ ms) :
    r.read ms = (r.advance ms, .ok (putUint16 (r.advance ms).hi ++ putUint64 (r.advance ms).lo)) ∧
    (r.advance ms).ms = ms ∧
    (r.advance ms).hi = r.uint64r.2 % 65536 ∧
    (r.advance ms).lo = r.uint64r.1.uint64r.2 := by
  refine ⟨?_, rfl, rfl, rfl⟩
  simp [Generator.read, h]

/-- **C3 witness**: a backward clock step (last-seen 10, current 3) still
succeeds and reseeds. -/
theorem read_new_ms_witness :
    (Generator.mk 0 10 1 2).ms ≠ 3 ∧
    ((Generator.mk 0 10 1 2).read 3 =
      ((Generator.mk 0 10 1 2).advance 3,
        .ok (putUint16 ((Generator.mk 0 10 1 2).advance 3).hi ++
          putUint64 ((Generator.mk 0 10 1 2).advance 3).lo)) ∧
      ((Generator.mk 0 10 1 2).advance 3).ms = 3 ∧
      ((Generator.mk 0 10 1 2).advance 3).hi = (Generator.mk 0 10 1 2).uint64r.2 % 65536 ∧
      ((Generator.mk 0 10 1 2).advance 3).lo = (Generator.mk 0 10 1 2).uint64r.1.uint64r.2) :=
  ⟨by decide, read_new_ms (Generator.mk 0 10 1 2) 3 (by decide)⟩

/-- **C2**: on a same-millisecond call the entropy step fails with
`ErrMonotonicOverflow` exactly when the 80-bit counter held its maximum
`2^80 - 1`; every smaller counter increments successfully. -/
theorem read_same_ms_overflow_iff (r : Generator) (ms : Nat)
    (hhi : r.hi < 65536) (hlo : r.lo < 18446744073709551616) (hms : r.ms = ms) :
    ((r.read ms).2 = .error .ErrMonotonicOverflow ↔
      r.hi * 18446744073709551616 + r.lo = 1208925819614629174706175) ∧
    (r.hi * 18446744073709551616 + r.lo < 1208925819614629174706175 →
      ∃ p, (r.read ms).2 = .ok p) := by
  subst hms
  obtain ⟨s, m, hi, lo⟩ := r
  simp only at hhi hlo
  simp only [Generator.read, if_pos rfl]
  by_cases hw : (lo + 1) % 18446744073709551616 < lo
  · by_cases hw2 : (hi + 1) % 65536 < hi
    · simp [hw, hw2]
      omega
    · simp [hw, hw2]
      omega
  · simp [hw]
    omega

/-- **C2 witness**: at counter value `(hi, lo) = (7, 9)` (far below the
maximum) the same-millisecond call does not overflow and succeeds. -/
theorem read_same_ms_overflow_iff_witness :
    (Generator.mk 0 5 7 9).hi < 65536 ∧ (Generator.mk 0 5 7 9).lo < 18446744073709551616 ∧
    (((Generator.mk 0 5 7 9).read 5).2 = .error .ErrMonotonicOverflow ↔
      (Generator.mk 0 5 7 9).hi * 18446744073709551616 + (Generator.mk 0 5 7 9).lo =
        1208925819614629174706175) ∧
    ((Generator.mk 0 5 7 9).hi * 18446744073709551616 + (Generator.mk 0 5 7 9).lo <
        1208925819614629174706175 →
      ∃ p, ((Generator.mk 0 5 7 9).read 5).2 = .ok p) :=
  ⟨by decide, by decide,
    (read_same_ms_overflow_iff (Generator.mk 0 5 7 9) 5 (by decide) (by decide) rfl).1,
    (read_same_ms_overflow_iff (Generator.mk 0 5 7 9) 5 (by decide) (by decide) rfl).2⟩

/-- **C9**: with the counter at its maximum, the same-millisecond call
mutates state before reporting: it returns `ErrMonotonicOverflow` with both
halves already wrapped to zero and the last-seen millisecond kept, so the
immediately following call in the same millisecond succeeds and issues
entropy value `1` — smaller than the value `2^80 - 1` already issued. -/
theorem read_overflow_mutates_state (r : Generator) (ms : Nat)
    (hms : r.ms = ms) (hhi : r.hi = 65535) (hlo : r.lo = 18446744073709551615) :
    (r.read ms).2 = .error .ErrMonotonicOverflow ∧
    (r.read ms).1.hi = 0 ∧ (r.read ms).1.lo = 0 ∧
    (r.read ms).1.ms = r.ms ∧ (r.read ms).1.seed = r.seed ∧
    ((r.read ms).1.read ms).2 = .ok (putUint16 0 ++ putUint64 1) ∧
    bytesBE (putUint16 0 ++ putUint64 1) = 1 ∧
    1 < r.hi * 18446744073709551616 + r.lo := by
  subst hms
  obtain ⟨s, m, hi, lo⟩ := r
  simp only at hhi hlo
  subst hhi hlo
  refine ⟨?_, ?_, ?_, ?_, ?_, ?_, by decide, by norm_num⟩ <;>
    simp [Generator.read, putUint16, putUint64]

/-- **C9 witness**: the maximal-counter scenario at a concrete generator. -/
theorem read_overflow_mutates_state_witness :
    ((Generator.mk 3 5 65535 18446744073709551615).read 5).2 = .error .ErrMonotonicOverflow ∧
    ((Generator.mk 3 5 65535 18446744073709551615).read 5).1.hi = 0 ∧
    ((Generator.mk 3 5 65535 18446744073709551615).read 5).1.lo = 0 ∧
    ((Generator.mk 3 5 65535 18446744073709551615).read 5).1.ms =
      (Generator.mk 3 5 65535 18446744073709551615).ms ∧
    ((Generator.mk 3 5 65535 18446744073709551615).read 5).1.seed =
      (Generator.mk 3 5 65535 18446744073709551615).seed ∧
    (((Generator.mk 3 5 65535 18446744073709551615).read 5).1.read 5).2 =
      .ok (putUint16 0 ++ putUint64 1) ∧
    bytesBE (putUint16 0 ++ putUint64 1) = 1 ∧
    1 < (Generator.mk 3 5 65535 18446744073709551615).hi * 18446744073709551616 +
      (Generator.mk 3 5 65535 18446744073709551615).lo :=
  read_overflow_mutates_state (Generator.mk 3 5 65535 18446744073709551615) 5 rfl rfl rfl

set_option maxHeartbeats 2000000 in
/-- **C4**: for every identifier, parsing its 36-character dashed text
encoding yields it back, and parsing its 16-byte binary encoding yields
it back. -/
theorem text_binary_roundtrip (id : List Nat) (hlen : id.length = 16)
    (hbytes : ∀ b ∈ id, b < 256) :
    Parse (MarshalText id) = .ok id ∧ Parse (MarshalBinary id) = .ok id := by
  rcases id with _ | ⟨b0, id⟩; · simp at hlen
  rcases id with _ | ⟨b1, id⟩; · simp at hlen
  rcases id with _ | ⟨b2, id⟩; · simp at hlen
  rcases id with _ | ⟨b3, id⟩; · simp at hlen
  rcases id with _ | ⟨b4, id⟩; · simp at hlen
  rcases id with _ | ⟨b5, id⟩; · simp at hlen
  rcases id with _ | ⟨b6, id⟩; · simp at hlen
  rcases id with _ | ⟨b7, id⟩; · simp at hlen
  rcases id with _ | ⟨b8, id⟩; · simp at hlen
  rcases id with _ | ⟨b9, id⟩; · simp at hlen
  rcases id with _ | ⟨b10, id⟩; · simp at hlen
  rcases id with _ | ⟨b11, id⟩; · simp at hlen
  rcases id with _ | ⟨b12, id⟩; · simp at hlen
  rcases id with _ | ⟨b13, id⟩; · simp at hlen
  rcases id with _ | ⟨b14, id⟩; · simp at hlen
  rcases id with _ | ⟨b15, id⟩; · simp at hlen
  rcases id with _ | ⟨bx, id⟩
  swap
  · simp at hlen
  have h0 : b0 < 256 := hbytes b0 (by simp)
  have h1 : b1 < 256 := hbytes b1 (by simp)
  have h2 : b2 < 256 := hbytes b2 (by simp)
  have h3 : b3 < 256 := hbytes b3 (by simp)
  have h4 : b4 < 256 := hbytes b4 (by simp)
  have h5 : b5 < 256 := hbytes b5 (by simp)
  have h6 : b6 < 256 := hbytes b6 (by simp)
  have h7 : b7 < 256 := hbytes b7 (by simp)
  have h8 : b8 < 256 := hbytes b8 (by simp)
  have h9 : b9 < 256 := hbytes b9 (by simp)
  have h10 : b10 < 256 := hbytes b10 (by simp)
  have h11 : b11 < 256 := hbytes b11 (by simp)
  have h12 : b12 < 256 := hbytes b12 (by simp)
  have h13 : b13 < 256 := hbytes b13 (by simp)
  have h14 : b14 < 256 := hbytes b14 (by simp)
  have h15 : b15 < 256 := hbytes b15 (by simp)
  have hts : ¬ (MaxTimestamp < timestamp [b0,b1,b2,b3,b4,b5,b6,b7,b8,b9,b10,b11,b12,b13,b14,b15]) := by
    simp [timestamp, MaxTimestamp]
    omega
  have hp : parse [b0,b1,b2,b3,b4,b5,b6,b7,b8,b9,b10,b11,b12,b13,b14,b15] zeroUULID = ([b0,b1,b2,b3,b4,b5,b6,b7,b8,b9,b10,b11,b12,b13,b14,b15], none) := by
    simp [parse, writeRange, zeroUULID, hts]
  have hp2 : parse (MarshalText [b0,b1,b2,b3,b4,b5,b6,b7,b8,b9,b10,b11,b12,b13,b14,b15]) zeroUULID = ([b0,b1,b2,b3,b4,b5,b6,b7,b8,b9,b10,b11,b12,b13,b14,b15], none) := by
    simp [MarshalText, hexEncode, parse, hexDecodePrefix_pair, hexDecodePrefix_nil,
      writeRange, zeroUULID, hts, h0, h1, h2, h3, h4, h5, h6, h7, h8, h9, h10, h11, h12, h13, h14, h15]
  constructor
  · simp [Parse, hp2]
  · simp [Parse, MarshalBinary, hp]

/-- **C4 witness**: the round trips at the test-vector identifier
`0178a284-9eaf-b3e7-036d-5b1b9f3cd753`. -/
theorem text_binary_roundtrip_witness :
    Parse (MarshalText [1,120,162,132,158,175,179,231,3,109,91,27,159,60,215,83]) =
      .ok [1,120,162,132,158,175,179,231,3,109,91,27,159,60,215,83] ∧
    Parse (MarshalBinary [1,120,162,132,158,175,179,231,3,109,91,27,159,60,215,83]) =
      .ok [1,120,162,132,158,175,179,231,3,109,91,27,159,60,215,83] :=
  text_binary_roundtrip [1,120,162,132,158,175,179,231,3,109,91,27,159,60,215,83]
    (by decide) (by decide)

set_option maxHeartbeats 2000000 in
/-- **C5**: `parse` routes deterministically by length — 16 bytes copied
raw, 32 hex-decoded directly, 36 decoded as five dash-delimited groups
into byte ranges `[0:4] [4:6] [6:8] [8:10] [10:16]`; any other length
fails with `ErrDataSize`; malformed hex digits fail with the hex decoding
error; after a clean decode the embedded timestamp is range-checked and a
value above `2^48-1` fails with `ErrBigTime`. -/
theorem parse_routing_and_errors :
    (∀ d : List Nat, d.length ≠ 16 → d.length ≠ 32 → d.length ≠ 36 →
      Parse d = .error .ErrDataSize) ∧
    (∀ d : List Nat, d.length = 16 →
      Parse d = if MaxTimestamp < timestamp d then .error .ErrBigTime else .ok d) ∧
    (∀ d : List Nat, d.length = 32 → (hexDecodePrefix d).2.isSome →
      Parse d = .error .ErrHex) ∧
    (∀ d out : List Nat, d.length = 32 → hexDecodePrefix d = (out, none) →
      Parse d = if MaxTimestamp < timestamp out then .error .ErrBigTime else .ok out) ∧
    (∀ d g1 g2 g3 g4 g5 : List Nat, d.length = 36 →
      hexDecodePrefix (d.take 8) = (g1, none) →
      hexDecodePrefix ((d.drop 9).take 4) = (g2, none) →
      hexDecodePrefix ((d.drop 14).take 4) = (g3, none) →
      hexDecodePrefix ((d.drop 19).take 4) = (g4, none) →
      hexDecodePrefix ((d.drop 24).take 12) = (g5, none) →
      Parse d = if MaxTimestamp < timestamp (g1 ++ g2 ++ g3 ++ g4 ++ g5)
        then .error .ErrBigTime else .ok (g1 ++ g2 ++ g3 ++ g4 ++ g5)) ∧
    (∀ d : List Nat, d.length = 36 →
      ((hexDecodePrefix (d.take 8)).2.isSome ∨
        (hexDecodePrefix ((d.drop 9).take 4)).2.isSome ∨
        (hexDecodePrefix ((d.drop 14).take 4)).2.isSome ∨
        (hexDecodePrefix ((d.drop 19).take 4)).2.isSome ∨
        (hexDecodePrefix ((d.drop 24).take 12)).2.isSome) →
      Parse d = .error .ErrHex) := by
  refine ⟨?_, ?_, ?_, ?_, ?_, ?_⟩
  · intro d h16 h32 h36
    simp [Parse, parse, h16, h32, h36]
  · intro d h
    by_cases hbig : MaxTimestamp < timestamp d <;>
      simp [Parse, parse, h, hbig, writeRange_zero_full]
  · intro d h hbad
    simp [Parse, parse, h, hbad]
  · intro d out h hdec
    have hlen : out.length = 16 := by
      have := hexDecodePrefix_length d out hdec
      omega
    by_cases hbig : MaxTimestamp < timestamp out <;>
      simp [Parse, parse, h, hdec, hbig, writeRange_zero_full, hlen]
  · intro d g1 g2 g3 g4 g5 h hd1 hd2 hd3 hd4 hd5
    have hl1 : g1.length = 4 := by
      have := hexDecodePrefix_length _ _ hd1; simp [List.length_take, h] at this; omega
    have hl2 : g2.length = 2 := by
      have := hexDecodePrefix_length _ _ hd2
      simp [List.length_take, List.length_drop, h] at this; omega
    have hl3 : g3.length = 2 := by
      have := hexDecodePrefix_length _ _ hd3
      simp [List.length_take, List.length_drop, h] at this; omega
    have hl4 : g4.length = 2 := by
      have := hexDecodePrefix_length _ _ hd4
      simp [List.length_take, List.length_drop, h] at this; omega
    have hl5 : g5.length = 6 := by
      have := hexDecodePrefix_length _ _ hd5
      simp [List.length_take, List.length_drop, h] at this; omega
    rcases g1 with _ | ⟨c0, g1⟩; · simp at hl1
    rcases g1 with _ | ⟨c1, g1⟩; · simp at hl1
    rcases g1 with _ | ⟨c2, g1⟩; · simp at hl1
    rcases g1 with _ | ⟨c3, g1⟩; · simp at hl1
    rcases g1 with _ | ⟨cy1, g1⟩
    swap
    · simp at hl1
    rcases g2 with _ | ⟨c4, g2⟩; · simp at hl2
    rcases g2 with _ | ⟨c5, g2⟩; · simp at hl2
    rcases g2 with _ | ⟨cy2, g2⟩
    swap
    · simp at hl2
    rcases g3 with _ | ⟨c6, g3⟩; · simp at hl3
    rcases g3 with _ | ⟨c7, g3⟩; · simp at hl3
    rcases g3 with _ | ⟨cy3, g3⟩
    swap
    · simp at hl3
    rcases g4 with _ | ⟨c8, g4⟩; · simp at hl4
    rcases g4 with _ | ⟨c9, g4⟩; · simp at hl4
    rcases g4 with _ | ⟨cy4, g4⟩
    swap
    · simp at hl4
    rcases g5 with _ | ⟨c10, g5⟩; · simp at hl5
    rcases g5 with _ | ⟨c11, g5⟩; · simp at hl5
    rcases g5 with _ | ⟨c12, g5⟩; · simp at hl5
    rcases g5 with _ | ⟨c13, g5⟩; · simp at hl5
    rcases g5 with _ | ⟨c14, g5⟩; · simp at hl5
    rcases g5 with _ | ⟨c15, g5⟩; · simp at hl5
    rcases g5 with _ | ⟨cy5, g5⟩
    swap
    · simp at hl5
    by_cases hbig : MaxTimestamp <
        timestamp [c0,c1,c2,c3,c4,c5,c6,c7,c8,c9,c10,c11,c12,c13,c14,c15] <;>
      simp [Parse, parse, h, hd1, hd2, hd3, hd4, hd5, writeRange, zeroUULID, hbig]
  · intro d h hbad
    rcases h1 : hexDecodePrefix (d.take 8) with ⟨g1, _ | u1⟩
    · rcases h2 : hexDecodePrefix ((d.drop 9).take 4) with ⟨g2, _ | u2⟩
      · rcases h3 : hexDecodePrefix ((d.drop 14).take 4) with ⟨g3, _ | u3⟩
        · rcases h4 : hexDecodePrefix ((d.drop 19).take 4) with ⟨g4, _ | u4⟩
          · rcases h5 : hexDecodePrefix ((d.drop 24).take 12) with ⟨g5, _ | u5⟩
            · simp [h1, h2, h3, h4, h5] at hbad
            · simp [Parse, parse, h, h1, h2, h3, h4, h5]
          · simp [Parse, parse, h, h1, h2, h3, h4]
        · simp [Parse, parse, h, h1, h2, h3]
      · simp [Parse, parse, h, h1, h2]
    · simp [Parse, parse, h, h1]

/-- **C5 witness**: the routing and error cases at concrete inputs — a
3-byte input, an all-zero 16-byte input, 32 invalid characters, 32 zero
digits, the dashed test vector, and 36 invalid characters. -/
theorem parse_routing_and_errors_witness :
    Parse [1,2,3] = .error .ErrDataSize ∧
    Parse [0,0,0,0,0,0,0,0,0,0,0,0,0,0,0,0] =
      (if MaxTimestamp < timestamp [0,0,0,0,0,0,0,0,0,0,0,0,0,0,0,0] then .error .ErrBigTime else .ok [0,0,0,0,0,0,0,0,0,0,0,0,0,0,0,0]) ∧
    Parse (List.replicate 32 122) = .error .ErrHex ∧
    Parse (List.replicate 32 48) =
      (if MaxTimestamp < timestamp (List.replicate 16 0) then .error .ErrBigTime
       else .ok (List.replicate 16 0)) ∧
    Parse [48,49,55,56,97,50,56,52,45,57,101,97,102,45,98,51,101,55,45,48,51,54,100,45,53,98,49,98,57,102,51,99,100,55,53,51] =
      (if MaxTimestamp < timestamp ([1,120,162,132] ++ [158,175] ++ [179,231] ++ [3,109] ++ [91,27,159,60,215,83])
       then .error .ErrBigTime else .ok ([1,120,162,132] ++ [158,175] ++ [179,231] ++ [3,109] ++ [91,27,159,60,215,83])) ∧
    Parse (List.replicate 36 122) = .error .ErrHex :=
  ⟨parse_routing_and_errors.1 [1,2,3] (by decide) (by decide) (by decide),
   parse_routing_and_errors.2.1 [0,0,0,0,0,0,0,0,0,0,0,0,0,0,0,0] (by decide),
   parse_routing_and_errors.2.2.1 (List.replicate 32 122) (by decide) (by decide),
   parse_routing_and_errors.2.2.2.1 (List.replicate 32 48) (List.replicate 16 0)
     (by decide) (by decide),
   parse_routing_and_errors.2.2.2.2.1 [48,49,55,56,97,50,56,52,45,57,101,97,102,45,98,51,101,55,45,48,51,54,100,45,53,98,49,98,57,102,51,99,100,55,53,51]
     [1,120,162,132] [158,175] [179,231] [3,109] [91,27,159,60,215,83]
     (by decide) (by decide) (by decide) (by decide) (by decide) (by decide),
   parse_routing_and_errors.2.2.2.2.2 (List.replicate 36 122) (by decide)
     (Or.inl (by decide))⟩

/-- **C8 counterexample**: a `nil` dynamic source — neither a string nor a
byte slice — makes `Scan` succeed with no error rather than fail with
`ErrInvalidType`, refuting the claim as stated. -/
theorem scan_null_counterexample :
    (Scan zeroUULID DriverValue.null).2 = none ∧
    (Scan zeroUULID DriverValue.null).2 ≠ some Err.ErrInvalidType := by decide

/-- **C8 (amended)**: every non-nil dynamic source value that is neither a
string nor a byte slice makes `Scan` fail with `ErrInvalidType`, leaving
the identifier unchanged; a nil source succeeds without touching it. -/
theorem scan_invalid_type (id : List Nat) (v : DriverValue) (h1 : v ≠ .null)
    (h2 : ∀ s, v ≠ .str s) (h3 : ∀ b, v ≠ .bytes b) :
    Scan id v = (id, some .ErrInvalidType) := by
  cases v
  case null => exact absurd rfl h1
  case str s => exact absurd rfl (h2 s)
  case bytes b => exact absurd rfl (h3 b)
  all_goals rfl

/-- **C8 witness**: an `int64` source value is rejected with
`ErrInvalidType`. -/
theorem scan_invalid_type_witness :
    Scan zeroUULID (DriverValue.int64 0) = (zeroUULID, some .ErrInvalidType) :=
  scan_invalid_type zeroUULID (DriverValue.int64 0) (fun h => by cases h)
    (fun s h => by cases h) (fun b h => by cases h)

/-- **C10**: in-place decoding is not atomic on failure — a 16-byte decode
fully overwrites the destination before the timestamp range check reports
`ErrBigTime`, and a 36-character decode whose second hex group fails has
already overwritten the first four destination bytes with the decoded
first group; the same holds through `UnmarshalText`, `UnmarshalJSON` and
`Scan` on a byte slice. -/
theorem unmarshal_not_atomic :
    (∀ id d : List Nat, id.length = 16 → d.length = 16 →
      UnmarshalBinary id d =
        (d, if MaxTimestamp < timestamp d then some .ErrBigTime else none)) ∧
    (∀ id d g1 : List Nat, id.length = 16 → d.length = 36 →
      hexDecodePrefix (d.take 8) = (g1, none) →
      hexDecodePrefix ((d.drop 9).take 4) = ([], some ()) →
      UnmarshalText id d = (g1 ++ id.drop 4, some .ErrHex) ∧
      UnmarshalJSON id d = (g1 ++ id.drop 4, some .ErrHex) ∧
      Scan id (.bytes d) = (g1 ++ id.drop 4, some .ErrHex)) := by
  constructor
  · intro id d hid hd
    by_cases hbig : MaxTimestamp < timestamp d <;>
      simp [UnmarshalBinary, parse, hd, hbig, writeRange_zero_16, hid]
  · intro id d g1 hid hd hd1 hd2
    have hl1 : g1.length = 4 := by
      have := hexDecodePrefix_length _ _ hd1
      simp [List.length_take, hd] at this
      omega
    refine ⟨?_, ?_, ?_⟩ <;>
      simp [UnmarshalText, UnmarshalJSON, Scan, parse, hd, hd1, hd2, writeRange, hl1,
        List.take_append_drop]

/-- **C10 witness**: a full-overwrite binary decode of sixteen `1` bytes
over sixteen `7` bytes, and the text
`00000000-zz00-0000-0000-000000000000` decoded over sixteen `7` bytes:
the first group lands in bytes 0-3 before the hex error is reported. -/
theorem unmarshal_not_atomic_witness :
    (UnmarshalBinary [7,7,7,7,7,7,7,7,7,7,7,7,7,7,7,7] [1,1,1,1,1,1,1,1,1,1,1,1,1,1,1,1] =
      ([1,1,1,1,1,1,1,1,1,1,1,1,1,1,1,1],
        if MaxTimestamp < timestamp [1,1,1,1,1,1,1,1,1,1,1,1,1,1,1,1] then some .ErrBigTime
        else none)) ∧
    (UnmarshalText [7,7,7,7,7,7,7,7,7,7,7,7,7,7,7,7]
        [48,48,48,48,48,48,48,48,45,122,122,48,48,45,48,48,48,48,45,48,48,48,48,45,
          48,48,48,48,48,48,48,48,48,48,48,48] =
      ([0,0,0,0] ++ [7,7,7,7,7,7,7,7,7,7,7,7,7,7,7,7].drop 4, some .ErrHex) ∧
     UnmarshalJSON [7,7,7,7,7,7,7,7,7,7,7,7,7,7,7,7]
        [48,48,48,48,48,48,48,48,45,122,122,48,48,45,48,48,48,48,45,48,48,48,48,45,
          48,48,48,48,48,48,48,48,48,48,48,48] =
      ([0,0,0,0] ++ [7,7,7,7,7,7,7,7,7,7,7,7,7,7,7,7].drop 4, some .ErrHex) ∧
     Scan [7,7,7,7,7,7,7,7,7,7,7,7,7,7,7,7]
        (.bytes [48,48,48,48,48,48,48,48,45,122,122,48,48,45,48,48,48,48,45,48,48,48,48,45,
          48,48,48,48,48,48,48,48,48,48,48,48]) =
      ([0,0,0,0] ++ [7,7,7,7,7,7,7,7,7,7,7,7,7,7,7,7].drop 4, some .ErrHex)) :=
  ⟨unmarshal_not_atomic.1 [7,7,7,7,7,7,7,7,7,7,7,7,7,7,7,7] [1,1,1,1,1,1,1,1,1,1,1,1,1,1,1,1]
      (by decide) (by decide),
   unmarshal_not_atomic.2 [7,7,7,7,7,7,7,7,7,7,7,7,7,7,7,7]
      [48,48,48,48,48,48,48,48,45,122,122,48,48,45,48,48,48,48,45,48,48,48,48,45,
        48,48,48,48,48,48,48,48,48,48,48,48] [0,0,0,0]
      (by decide) (by decide) (by decide) (by decide)⟩

end UULIDSpec
